import Mathlib

/-!
# WonderDash — verification of the metric-dashboard core

Shallow embedding of the WonderDash terminal dashboard (a CloudFront
metrics poller).  The pure parts of `config.py` and
`src/wonder_dash/dashboard.py` are translated into executable Lean
definitions; the theorems at the end of the file settle the frozen
claims about the specification.

Conventions of the embedding:
* Python `int` becomes `Int`; Python `float` metric values become `ℚ`
  (every concrete value appearing in the claims is binary-exact, so
  rational arithmetic coincides with IEEE double arithmetic there).
* Timestamps are epoch seconds (`Int`).
* A Python function that can raise `ValueError` is embedded as a
  function into `Except String _`.
* `None`/empty-string truthiness is modelled explicitly at each use
  site, mirroring the Python conditions.
-/

namespace WonderDash

/-! ## Python string primitives used by `config.py` -/

/-- The code points for which Python's `str.isspace`/`str.strip`
consider a character to be whitespace. -/
def pySpaceCodes : List Nat :=
  [9, 10, 11, 12, 13, 28, 29, 30, 31, 32, 133, 160, 5760,
   8192, 8193, 8194, 8195, 8196, 8197, 8198, 8199, 8200, 8201, 8202,
   8232, 8233, 8239, 8287, 12288]

/-- Whether a character counts as whitespace for Python's `str.strip`. -/
def isPySpace (c : Char) : Bool := c.toNat ∈ pySpaceCodes

/-- Python `str.strip()` on a character list: drop whitespace from both
ends. -/
def pyStrip (cs : List Char) : List Char :=
  List.rdropWhile isPySpace (List.dropWhile isPySpace cs)

/-! ## Configuration record (`config.py`, class `WonderConfig`) -/

/-- The persisted configuration record (`WonderConfig` dataclass). -/
structure WonderConfig where
  aws_profile : Option String := none
  distribution_id : Option String := none
  region : String := "us-east-1"
  period_seconds : Int := 300
  window_minutes : Int := 60
  poll_seconds : Int := 30
deriving DecidableEq, Repr

/-- The resource-id cleaning performed by `WonderConfig.ensure_valid`
(config.py lines 76–84): strip the id, keep only printable ASCII
(codes 32–126), drop non-ASCII remnants via the `isascii` guard, and
turn an empty result into `None`. -/
def cleanDistributionId (s : String) : Option String :=
  let cleaned := (pyStrip s.data).filter fun ch =>
    decide (32 ≤ ch.toNat ∧ ch.toNat ≤ 126)
  let d :=
    if cleaned ≠ [] ∧ ¬ (cleaned.all fun ch => decide (ch.toNat < 128)) then
      cleaned.filter fun ch => decide (ch.toNat < 128)
    else cleaned
  if d = [] then none else some (String.mk d)

/-- `WonderConfig.ensure_valid` (config.py lines 61–84): reject
non-positive numeric fields, round the period up to a multiple of 60,
and clean the distribution id.  The Python method mutates `self`; the
embedding returns the updated record (or the raised `ValueError`
message). -/
def ensure_valid (c : WonderConfig) : Except String WonderConfig :=
  if c.period_seconds ≤ 0 then .error "period_seconds must be positive"
  else if c.window_minutes ≤ 0 then .error "window_minutes must be positive"
  else if c.poll_seconds ≤ 0 then .error "poll_seconds must be positive"
  else
    let p1 := if c.period_seconds < 60 then 60 else c.period_seconds
    let p2 := if p1 % 60 ≠ 0 then p1 + (60 - p1 % 60) else p1
    let d := match c.distribution_id with
      | some s => cleanDistributionId s
      | none => none
    .ok { c with period_seconds := p2, distribution_id := d }

/-- The guard at the top of `run_dashboard` (dashboard.py lines
641–647): `if not config.distribution_id` — i.e. the configured id is
`None` or the empty string — the process exits with code 1. -/
def dashboardGuardExits (c : WonderConfig) : Bool :=
  match c.distribution_id with
  | none => true
  | some s => s = ""

/-! ## Environment overrides (`dashboard.py`, `_env_int` / `_inject_overrides`) -/

/-- Core of Python `int(...)` digit parsing: consume decimal digits,
allowing a single underscore between two digits (CPython's grouping
rule). -/
def parseDigitsCore : List Char → Nat → Option Nat
  | [], acc => some acc
  | '_' :: c :: rest, acc =>
      if c.isDigit then parseDigitsCore rest (acc * 10 + (c.toNat - 48)) else none
  | c :: rest, acc =>
      if c.isDigit then parseDigitsCore rest (acc * 10 + (c.toNat - 48)) else none

/-- Parse a non-empty run of decimal digits (no leading underscore). -/
def parseDigits : List Char → Option Nat
  | [] => none
  | c :: rest =>
      if c.isDigit then parseDigitsCore rest (c.toNat - 48) else none

/-- Python `int(raw)` on a string: surrounding whitespace is ignored, an
optional single sign precedes the digits, and a parse failure raises
`ValueError` (here: `none`). -/
def pyParseInt (s : String) : Option Int :=
  match pyStrip s.data with
  | [] => none
  | c :: rest =>
      if c = '-' then (parseDigits rest).map fun n => -(n : Int)
      else if c = '+' then (parseDigits rest).map fun n => (n : Int)
      else (parseDigits (c :: rest)).map fun n => (n : Int)

/-- The process environment variables consulted by `_inject_overrides`
(dashboard.py lines 106–131); `none` models an unset variable. -/
structure Env where
  CF_AWS_PROFILE : Option String := none
  CF_DISTRIBUTION_ID : Option String := none
  CF_CW_REGION : Option String := none
  CF_PERIOD_SECONDS : Option String := none
  CF_WINDOW_MINUTES : Option String := none
  CF_POLL_SECONDS : Option String := none
deriving DecidableEq, Repr

/-- `_env_int(name, default)`: an unset or empty variable keeps the
default, a parsable integer yields `max 1 value`, an unparsable string
keeps the default (dashboard.py lines 106–112). -/
def _env_int (raw : Option String) (default : Int) : Int :=
  match raw with
  | none => default
  | some s =>
      if s = "" then default
      else
        match pyParseInt s with
        | some n => max 1 n
        | none => default

/-- `os.getenv(name) or fallback` for optional-string fields: an unset
or empty variable falls back. -/
def envOrOpt (raw : Option String) (fallback : Option String) : Option String :=
  match raw with
  | none => fallback
  | some s => if s = "" then fallback else some s

/-- `os.getenv(name) or fallback` for the region (a plain string). -/
def envOrStr (raw : Option String) (fallback : String) : String :=
  match raw with
  | none => fallback
  | some s => if s = "" then fallback else s

/-- `_inject_overrides(config)` (dashboard.py lines 115–131): build a
fresh configuration in which each environment override takes precedence
over the persisted value.  Note that the result is **not** passed
through `ensure_valid`. -/
def _inject_overrides (env : Env) (config : WonderConfig) : WonderConfig :=
  { aws_profile := envOrOpt env.CF_AWS_PROFILE config.aws_profile
    distribution_id := envOrOpt env.CF_DISTRIBUTION_ID config.distribution_id
    region := envOrStr env.CF_CW_REGION config.region
    period_seconds := _env_int env.CF_PERIOD_SECONDS config.period_seconds
    window_minutes := _env_int env.CF_WINDOW_MINUTES config.window_minutes
    poll_seconds := _env_int env.CF_POLL_SECONDS config.poll_seconds }

/-- The repaint rate computed at dashboard start (dashboard.py line
651): `max(1, min(10, 60 // max(1, config.poll_seconds // 2)))`. -/
def refresh_hz (poll_seconds : Int) : Int :=
  max 1 (min 10 (60 / max 1 (poll_seconds / 2)))

/-- Modelled from the spec's wording for comparison: `clamp(x, lo, hi)`. -/
def specClamp (x lo hi : Int) : Int := max lo (min x hi)

/-- Modelled from the spec's wording for comparison:
`clamp(60 / max(1, poll_seconds / 2), 1, 10)`. -/
def specRefreshRate (poll_seconds : Int) : Int :=
  specClamp (60 / max 1 (poll_seconds / 2)) 1 10

/-! ## Number formatting (`f"{value:,.2f}"` and friends) -/

/-- Round a rational to the nearest integer, ties to even — the
rounding used by Python's fixed-point string formatting. -/
def roundHalfEven (x : ℚ) : Int :=
  let fl := ⌊x⌋
  let fr := x - fl
  if fr < 1 / 2 then fl
  else if fr > 1 / 2 then fl + 1
  else if fl % 2 = 0 then fl else fl + 1

/-- Insert a thousands separator after every third digit, working over
a least-significant-first digit list. -/
def groupRev : List Char → Nat → List Char
  | [], _ => []
  | c :: rest, k =>
      if k = 2 ∧ rest ≠ [] then c :: ',' :: groupRev rest 0
      else c :: groupRev rest (k + 1)

/-- Decimal digits of `n` with `,` thousands separators (Python's `,`
format flag). -/
def commaGrouped (n : Nat) : String :=
  String.mk ((groupRev (Nat.toDigits 10 n).reverse 0).reverse)

/-- Python `f"{q:,.d f}"` for non-negative `q`: fixed-point with `d`
decimal places, half-even rounding, comma-grouped integer part. -/
def formatFixedNonneg (decimals : Nat) (q : ℚ) : String :=
  let n := (roundHalfEven (q * (10 ^ decimals : Nat))).toNat
  let intPart := n / 10 ^ decimals
  let fracPart := n % 10 ^ decimals
  if decimals = 0 then commaGrouped intPart
  else
    let ds := Nat.toDigits 10 fracPart
    commaGrouped intPart ++ "." ++
      String.mk (List.replicate (decimals - ds.length) '0' ++ ds)

/-- Python `f"{q:,.d f}"`: sign handling on top of the non-negative
case. -/
def formatFixed (decimals : Nat) (q : ℚ) : String :=
  if q < 0 then "-" ++ formatFixedNonneg decimals (-q)
  else formatFixedNonneg decimals q

/-- `_format_bytes` loop body (dashboard.py lines 353–359): walk the
unit list, dividing by 1024 until the value is below 1024 or the last
unit (`unit == units[-1]`, i.e. no unit follows) is reached. -/
def formatBytesGo : List String → ℚ → String
  | [], value => formatFixed 2 value ++ " Bytes"
  | unit :: rest, value =>
      if value < 1024 ∨ rest = [] then formatFixed 2 value ++ " " ++ unit
      else formatBytesGo rest (value / 1024)

/-- `_format_bytes(value)` (dashboard.py lines 353–359). -/
def _format_bytes (value : ℚ) : String :=
  formatBytesGo ["Bytes", "KB", "MB", "GB", "TB"] value

/-! ## Metric data model (`dashboard.py` dataclasses) -/

/-- One observation of the primary time series (`MetricSample`). -/
structure MetricSample where
  timestamp : Int
  value : ℚ
deriving DecidableEq, Repr

/-- The per-cycle snapshot of the primary series (`MetricWindow`). -/
structure MetricWindow where
  samples : List MetricSample
  status : String
  messages : List String
deriving DecidableEq, Repr

/-- A named auxiliary series (`ScalarMetric`). -/
structure ScalarMetric where
  label : String
  unit : String
  values : List ℚ
  timestamps : List Int
deriving DecidableEq, Repr

/-- `ScalarMetric.latest`: last value, or `0.0` when empty. -/
def ScalarMetric.latest (m : ScalarMetric) : ℚ :=
  (m.values.getLast?).getD 0

/-- `ScalarMetric.total`: sum of the values. -/
def ScalarMetric.total (m : ScalarMetric) : ℚ :=
  m.values.sum

/-- The derived health classification (`HealthStatus`). -/
structure HealthStatus where
  label : String
  detail : String
  style : String
  badge : String
deriving DecidableEq, Repr

/-! ## Fetch processing (`fetch_request_series`, pure post-response part)

The query construction (namespace, dimensions, `Stat`, time range) is
request-side I/O; the embedding starts from the parsed
`MetricDataResults` list of the response.  Timestamps arrive already
converted to epoch seconds and values to rationals. -/

/-- One entry of a result's `Messages` list: either a
`{"Code": …, "Value": …}` dict or some other object rendered with
`str`. -/
inductive MessageEntry where
  | entry (code : Option String) (value : Option String)
  | raw (s : String)
deriving DecidableEq, Repr

/-- Formatting of one message entry (dashboard.py lines 246–252):
`f"{code}: {value}".strip()` with falsy-field defaults. -/
def formatMessageEntry : MessageEntry → String
  | .entry code value =>
      let c := match code with
        | none => "Message"
        | some s => if s = "" then "Message" else s
      let v := match value with
        | none => ""
        | some s => s
      String.mk (pyStrip (c ++ ": " ++ v).data)
  | .raw s => s

/-- One element of the response's `MetricDataResults`. -/
structure MetricDataResult where
  id : String
  timestamps : List Int
  values : List ℚ
  statusCode : Option String
  messages : List MessageEntry
deriving DecidableEq, Repr

/-- The response-side fields of `metric_specs` (dashboard.py lines
145–195): query id ↦ (unit, label).  The request-side fields
(`metric`, `stat`) only shape the outgoing query and are not consumed
after the response. -/
def metric_specs : List (String × String × String) :=
  [("requests", "Count", "Requests"),
   ("bytes_downloaded", "Bytes", "Bytes Downloaded"),
   ("bytes_uploaded", "Bytes", "Bytes Uploaded"),
   ("errors_4xx", "Percent", "4xx Error Rate"),
   ("errors_5xx", "Percent", "5xx Error Rate"),
   ("total_errors", "Percent", "Total Error Rate"),
   ("origin_latency", "Milliseconds", "Origin Latency"),
   ("availability", "Percent", "Availability"),
   ("cache_hit", "Percent", "Cache Hit Rate")]

/-- First-match association lookup (Python `dict.get`). -/
def dictGet {β : Type} (k : String) : List (String × β) → Option β
  | [] => none
  | (k', v) :: rest => if k' = k then some v else dictGet k rest

/-- Python `dict[k] = v`: replace in place if present, else append. -/
def dictInsert {β : Type} : List (String × β) → String → β → List (String × β)
  | [], k, v => [(k, v)]
  | (k', v') :: rest, k, v =>
      if k' = k then (k, v) :: rest else (k', v') :: dictInsert rest k v

/-- Accumulator of the `for result in results` loop in
`fetch_request_series`. -/
structure FetchAcc where
  samples : List MetricSample
  scalar_store : List (String × ScalarMetric)
  status : String
  messages : List String

/-- One iteration of the result loop (dashboard.py lines 237–264). -/
def processResult (acc : FetchAcc) (result : MetricDataResult) : FetchAcc :=
  let status := match result.statusCode with
    | some s => s
    | none => acc.status
  let messages := acc.messages ++ result.messages.map formatMessageEntry
  if result.id = "requests" then
    { acc with
        samples := acc.samples ++
          (List.zip result.timestamps result.values).map fun tv =>
            ⟨tv.1, tv.2⟩
        status := status
        messages := messages }
  else
    match dictGet result.id metric_specs with
    | some (unit, label) =>
        { acc with
            scalar_store := dictInsert acc.scalar_store result.id
              ⟨label, unit, result.values, result.timestamps⟩
            status := status
            messages := messages }
    | none => { acc with status := status, messages := messages }

/-- Ascending order on samples by timestamp (the `samples.sort` key). -/
def sampleLE (a b : MetricSample) : Prop := a.timestamp ≤ b.timestamp

instance : DecidableRel sampleLE := fun a b =>
  inferInstanceAs (Decidable (a.timestamp ≤ b.timestamp))

instance : IsTotal MetricSample sampleLE :=
  ⟨fun a b => Int.le_total a.timestamp b.timestamp⟩

instance : IsTrans MetricSample sampleLE :=
  ⟨fun _ _ _ h1 h2 => Int.le_trans h1 h2⟩

/-- `fetch_request_series` after the `get_metric_data` call (dashboard.py
lines 226–270): an empty result list yields an empty `NoData` window
and clears the auxiliary store; otherwise the results are folded,
the primary samples sorted ascending by timestamp, and the auxiliary
store replaced wholesale.  The second component is the new content of
the caller-owned `scalars` mapping. -/
def fetch_request_series (results : List MetricDataResult) :
    MetricWindow × List (String × ScalarMetric) :=
  if results.isEmpty then (⟨[], "NoData", []⟩, [])
  else
    let acc := results.foldl processResult ⟨[], [], "Unknown", []⟩
    (⟨List.insertionSort sampleLE acc.samples, acc.status, acc.messages⟩,
     acc.scalar_store)

/-! ## The poll-cycle fault boundary (`run_dashboard`, lines 678–718) -/

/-- Outcome of one `get_metric_data` call as seen by the `try` block in
`run_dashboard`: either a parsed response, or one of the caught SDK
exceptions (`ClientError` and `BotoCoreError` share a handler and are
modelled by one constructor). -/
inductive FetchOutcome where
  | success (results : List MetricDataResult)
  | profileNotFound (err : String)
  | noCredentials (err : String)
  | clientError (err : String)
deriving DecidableEq, Repr

/-- The fetch step of one poll cycle including its exception handlers
(dashboard.py lines 679–718): every classified failure is folded into a
status-tagged empty window, and the auxiliary store is cleared.  The
function is total — no fault propagates to the caller. -/
def pollCycle (outcome : FetchOutcome) :
    MetricWindow × List (String × ScalarMetric) :=
  match outcome with
  | .success results => fetch_request_series results
  | .profileNotFound e =>
      (⟨[], "CredentialsMissing", ["AWS profile not found: " ++ e]⟩, [])
  | .noCredentials e =>
      (⟨[], "CredentialsMissing",
        ["AWS credentials not found.",
         "Run `aws configure` or export AWS_ACCESS_KEY_ID / AWS_SECRET_ACCESS_KEY.",
         e]⟩, [])
  | .clientError e =>
      (⟨[], "CloudWatchError", [e]⟩, [])

/-! ## Health assessment (`_compute_health`, lines 467–520) -/

/-- The `availability` block of `_compute_health` (dashboard.py lines
474–482): update the running `(severity, notes)` pair. -/
def availabilityStep (metrics : List (String × ScalarMetric))
    (sn : Nat × List String) : Nat × List String :=
  match dictGet "availability" metrics with
  | some a =>
      if a.values ≠ [] then
        if a.latest < 98 then
          (Nat.max sn.1 2, sn.2 ++ ["Availability " ++ formatFixed 2 a.latest ++ "%"])
        else if a.latest < 99.5 then
          (Nat.max sn.1 1, sn.2 ++ ["Availability " ++ formatFixed 2 a.latest ++ "%"])
        else sn
      else sn
  | none => sn

/-- The `total_errors` block of `_compute_health` (dashboard.py lines
484–492). -/
def errorRateStep (metrics : List (String × ScalarMetric))
    (sn : Nat × List String) : Nat × List String :=
  match dictGet "total_errors" metrics with
  | some e =>
      if e.values ≠ [] then
        if e.latest > 5 then
          (Nat.max sn.1 2, sn.2 ++ ["Errors " ++ formatFixed 2 e.latest ++ "%"])
        else if e.latest > 1 then
          (Nat.max sn.1 1, sn.2 ++ ["Errors " ++ formatFixed 2 e.latest ++ "%"])
        else sn
      else sn
  | none => sn

/-- The `origin_latency` block of `_compute_health` (dashboard.py lines
494–502). -/
def latencyStep (metrics : List (String × ScalarMetric))
    (sn : Nat × List String) : Nat × List String :=
  match dictGet "origin_latency" metrics with
  | some l =>
      if l.values ≠ [] then
        if l.latest > 400 then
          (Nat.max sn.1 2, sn.2 ++ ["Latency " ++ formatFixed 0 l.latest ++ "ms"])
        else if l.latest > 250 then
          (Nat.max sn.1 1, sn.2 ++ ["Latency " ++ formatFixed 0 l.latest ++ "ms"])
        else sn
      else sn
  | none => sn

/-- `_compute_health(metrics, samples)` (dashboard.py lines 467–520):
the three sequential `severity = max(severity, …)` /
`notes.append(…)` blocks are threaded through the step functions
above, starting from `severity = 0`, `notes = []`. -/
def _compute_health (metrics : List (String × ScalarMetric))
    (samples : List MetricSample) : HealthStatus :=
  if metrics.isEmpty ∧ samples.isEmpty then
    ⟨"Monitoring", "Waiting for metrics", "yellow", "? Monitoring"⟩
  else
    let sn3 := latencyStep metrics (errorRateStep metrics
      (availabilityStep metrics (0, [])))
    let severity := sn3.1
    let notes := sn3.2
    if severity = 0 then
      ⟨"Healthy",
       if notes ≠ [] then String.intercalate ", " notes else "All metrics nominal",
       "green", "[OK]"⟩
    else if severity = 1 then
      ⟨"Watch", String.intercalate ", " notes, "yellow", "[WARN]"⟩
    else
      ⟨"Degraded",
       if notes ≠ [] then String.intercalate ", " notes else "Investigate metrics",
       "red", "[CRIT]"⟩

/-- Modelled from the spec's wording: the availability check
(< 98.0 → degraded = 2, < 99.5 → watch = 1, else nominal = 0). -/
def availabilityCheck (metrics : List (String × ScalarMetric)) : Nat :=
  match dictGet "availability" metrics with
  | some a =>
      if a.values ≠ [] then
        if a.latest < 98 then 2 else if a.latest < 99.5 then 1 else 0
      else 0
  | none => 0

/-- Modelled from the spec's wording: the total-error-rate check
(> 5 → degraded = 2, > 1 → watch = 1, else nominal = 0). -/
def errorRateCheck (metrics : List (String × ScalarMetric)) : Nat :=
  match dictGet "total_errors" metrics with
  | some e =>
      if e.values ≠ [] then
        if e.latest > 5 then 2 else if e.latest > 1 then 1 else 0
      else 0
  | none => 0

/-- Modelled from the spec's wording: the origin-latency check
(> 400 ms → degraded = 2, > 250 ms → watch = 1, else nominal = 0). -/
def latencyCheck (metrics : List (String × ScalarMetric)) : Nat :=
  match dictGet "origin_latency" metrics with
  | some l =>
      if l.values ≠ [] then
        if l.latest > 400 then 2 else if l.latest > 250 then 1 else 0
      else 0
  | none => 0

/-- Modelled from the spec's wording: the label derived from the
overall severity (0 → healthy, 1 → watch, ≥ 2 → degraded). -/
def severityLabel (n : Nat) : String :=
  if n = 0 then "Healthy" else if n = 1 then "Watch" else "Degraded"

/-! ## Concrete instances used by the claim theorems -/

/-- The spec's health tie-break scenario: availability 99.0 %, total
error rate 0.5 %, origin latency 100 ms. -/
def scenarioMetrics : List (String × ScalarMetric) :=
  [("availability", ⟨"Availability", "Percent", [99], [0]⟩),
   ("total_errors", ⟨"Total Error Rate", "Percent", [0.5], [0]⟩),
   ("origin_latency", ⟨"Origin Latency", "Milliseconds", [100], [0]⟩)]

/-- A configuration with a 61-second period (not a multiple of 60). -/
def cfg61 : WonderConfig := { period_seconds := 61 }

/-- A configuration whose resource id hides a space behind a control
character: `"\x01 a"`. -/
def cexConfig : WonderConfig := { distribution_id := some "\x01 a" }

/-- `cexConfig` after one normalization: the control character is gone
but a leading space survived the strip. -/
def cexOnce : WonderConfig := { distribution_id := some " a" }

/-- `cexConfig` after two normalizations: the second strip removes the
leading space. -/
def cexTwice : WonderConfig := { distribution_id := some "a" }

/-- A configuration with a printable resource id and a 61-second
period. -/
def cfgPrintable : WonderConfig :=
  { distribution_id := some "E123", period_seconds := 61 }

/-- `cfgPrintable` after normalization. -/
def cfgPrintableNorm : WonderConfig :=
  { distribution_id := some "E123", period_seconds := 120 }

/-- A configuration whose resource id is all spaces. -/
def blankConfig : WonderConfig := { distribution_id := some "   " }

/-- An environment carrying only `CF_PERIOD_SECONDS=61`. -/
def env61 : Env := { CF_PERIOD_SECONDS := some "61" }

/-! ## Claim theorems -/

/-- C1: every failure of the underlying metric query call — missing
profile, missing credentials, service/client error, empty result — is
classified by the fetch layer rather than thrown: `pollCycle` is a
total function whose result tags the failure kind in the returned
window's status field and carries the diagnostic text in its message
list, so the caller always receives a window. -/
theorem fetch_failures_classified (e : String) :
    (pollCycle (.profileNotFound e)).1.status = "CredentialsMissing" ∧
    (pollCycle (.profileNotFound e)).1.messages =
      ["AWS profile not found: " ++ e] ∧
    (pollCycle (.noCredentials e)).1.status = "CredentialsMissing" ∧
    (pollCycle (.noCredentials e)).1.messages =
      ["AWS credentials not found.",
       "Run `aws configure` or export AWS_ACCESS_KEY_ID / AWS_SECRET_ACCESS_KEY.",
       e] ∧
    (pollCycle (.clientError e)).1.status = "CloudWatchError" ∧
    (pollCycle (.clientError e)).1.messages = [e] ∧
    (pollCycle (.success [])).1.status = "NoData" :=
  ⟨rfl, rfl, rfl, rfl, rfl, rfl, rfl⟩

/-- C2: for each of the four classified fetch failure kinds the
produced Metric Window has zero samples and a non-"Unknown" status
matching the kind, and the auxiliary scalar store is cleared. -/
theorem failure_window_empty (e : String) :
    (pollCycle (.profileNotFound e)).1.samples = [] ∧
    (pollCycle (.profileNotFound e)).2 = [] ∧
    (pollCycle (.profileNotFound e)).1.status = "CredentialsMissing" ∧
    (pollCycle (.noCredentials e)).1.samples = [] ∧
    (pollCycle (.noCredentials e)).2 = [] ∧
    (pollCycle (.noCredentials e)).1.status = "CredentialsMissing" ∧
    (pollCycle (.clientError e)).1.samples = [] ∧
    (pollCycle (.clientError e)).2 = [] ∧
    (pollCycle (.clientError e)).1.status = "CloudWatchError" ∧
    (pollCycle (.success [])).1.samples = [] ∧
    (pollCycle (.success [])).2 = [] ∧
    (pollCycle (.success [])).1.status = "NoData" ∧
    (pollCycle (.profileNotFound e)).1.status ≠ "Unknown" ∧
    (pollCycle (.clientError e)).1.status ≠ "Unknown" ∧
    (pollCycle (.success [])).1.status ≠ "Unknown" :=
  ⟨rfl, rfl, rfl, rfl, rfl, rfl, rfl, rfl, rfl, rfl, rfl, rfl,
   (by decide : ("CredentialsMissing" : String) ≠ "Unknown"),
   (by decide : ("CloudWatchError" : String) ≠ "Unknown"),
   (by decide : ("NoData" : String) ≠ "Unknown")⟩

/-- C4: for every configuration with positive numeric fields,
normalization succeeds and turns the period into the smallest multiple
of 60 that is greater than or equal to the original period. -/
theorem period_rounding_least_multiple (c : WonderConfig)
    (hp : 0 < c.period_seconds) (hw : 0 < c.window_minutes)
    (hq : 0 < c.poll_seconds) :
    ∃ c', ensure_valid c = .ok c' ∧
      c'.period_seconds % 60 = 0 ∧
      c.period_seconds ≤ c'.period_seconds ∧
      ∀ m : Int, m % 60 = 0 → c.period_seconds ≤ m →
        c'.period_seconds ≤ m := by
  unfold ensure_valid
  rw [if_neg (by omega), if_neg (by omega), if_neg (by omega)]
  refine ⟨_, rfl, ?_, ?_, ?_⟩ <;> (dsimp only; split_ifs <;> omega)

/-- Witness for C4 at period 61 (61 rounds to 120). -/
theorem period_rounding_least_multiple_witness :
    (0 < cfg61.period_seconds ∧ 0 < cfg61.window_minutes ∧
      0 < cfg61.poll_seconds) ∧
    (∃ c', ensure_valid cfg61 = .ok c' ∧
      c'.period_seconds % 60 = 0 ∧
      cfg61.period_seconds ≤ c'.period_seconds ∧
      ∀ m : Int, m % 60 = 0 → cfg61.period_seconds ≤ m →
        c'.period_seconds ≤ m) :=
  ⟨⟨by decide, by decide, by decide⟩,
   period_rounding_least_multiple cfg61 (by decide) (by decide) (by decide)⟩

/-- C6: whatever (timestamp, value) pairs the query returns, in any
order and spread over any result entries, the samples of the window
built by `fetch_request_series` are non-decreasing by timestamp. -/
theorem window_samples_sorted (results : List MetricDataResult) :
    List.Sorted sampleLE (fetch_request_series results).1.samples := by
  unfold fetch_request_series
  split
  · exact List.sorted_nil
  · exact List.sorted_insertionSort sampleLE _

/-- C7: for every positive poll interval, the repaint rate computed at
dashboard start is exactly the spec's
`clamp(60 / max(1, poll_seconds / 2), 1, 10)`, and in particular lies
between 1 and 10. -/
theorem refresh_rate_spec (p : Int) (_hp : 0 < p) :
    refresh_hz p = specRefreshRate p ∧
    1 ≤ refresh_hz p ∧ refresh_hz p ≤ 10 := by
  refine ⟨?_, le_max_left _ _, max_le (by norm_num) (min_le_left _ _)⟩
  unfold refresh_hz specRefreshRate specClamp
  rw [min_comm]

/-- Witness for C7 at a 30-second poll interval. -/
theorem refresh_rate_spec_witness :
    0 < (30 : Int) ∧
    (refresh_hz 30 = specRefreshRate 30 ∧
      1 ≤ refresh_hz 30 ∧ refresh_hz 30 ≤ 10) :=
  ⟨by decide, refresh_rate_spec 30 (by decide)⟩

/-- The severity component of the availability block is the max of the
incoming severity and the spec's availability check. -/
theorem availabilityStep_fst (metrics : List (String × ScalarMetric))
    (sn : Nat × List String) :
    (availabilityStep metrics sn).1 = Nat.max sn.1 (availabilityCheck metrics) := by
  unfold availabilityStep availabilityCheck
  cases dictGet "availability" metrics <;> dsimp only <;> try split_ifs
  all_goals simp

/-- The severity component of the error-rate block is the max of the
incoming severity and the spec's error-rate check. -/
theorem errorRateStep_fst (metrics : List (String × ScalarMetric))
    (sn : Nat × List String) :
    (errorRateStep metrics sn).1 = Nat.max sn.1 (errorRateCheck metrics) := by
  unfold errorRateStep errorRateCheck
  cases dictGet "total_errors" metrics <;> dsimp only <;> try split_ifs
  all_goals simp

/-- The severity component of the latency block is the max of the
incoming severity and the spec's latency check. -/
theorem latencyStep_fst (metrics : List (String × ScalarMetric))
    (sn : Nat × List String) :
    (latencyStep metrics sn).1 = Nat.max sn.1 (latencyCheck metrics) := by
  unfold latencyStep latencyCheck
  cases dictGet "origin_latency" metrics <;> dsimp only <;> try split_ifs
  all_goals simp

/-- Outside the monitoring state, the health label is exactly the label
of the maximum of the three spec checks. -/
theorem health_label_eq (metrics : List (String × ScalarMetric))
    (samples : List MetricSample)
    (h : ¬(metrics.isEmpty ∧ samples.isEmpty)) :
    (_compute_health metrics samples).label =
      severityLabel (Nat.max (Nat.max (availabilityCheck metrics)
        (errorRateCheck metrics)) (latencyCheck metrics)) := by
  unfold _compute_health
  rw [if_neg h]
  have hs : (latencyStep metrics (errorRateStep metrics
      (availabilityStep metrics (0, [])))).1 =
      Nat.max (Nat.max (availabilityCheck metrics) (errorRateCheck metrics))
        (latencyCheck metrics) := by
    rw [latencyStep_fst, errorRateStep_fst, availabilityStep_fst]
    simp
  dsimp only
  rw [hs]
  unfold severityLabel
  split_ifs <;> rfl

/-- C3: the health assessment is a pure function of the scalar metrics
and sample presence whose severity is the maximum of the three
threshold checks; the spec's tie-break scenario (availability 99.0 %,
error rate 0.5 %, latency 100 ms) yields "Watch", and an empty state
yields the distinct "Monitoring" status, not "Healthy". -/
theorem health_severity_max :
    (∀ metrics samples, ¬(metrics.isEmpty ∧ samples.isEmpty) →
        (_compute_health metrics samples).label =
          severityLabel (Nat.max (Nat.max (availabilityCheck metrics)
            (errorRateCheck metrics)) (latencyCheck metrics))) ∧
    _compute_health [] [] =
      ⟨"Monitoring", "Waiting for metrics", "yellow", "? Monitoring"⟩ ∧
    (_compute_health [] []).label ≠ "Healthy" ∧
    (_compute_health scenarioMetrics []).label = "Watch" ∧
    (_compute_health scenarioMetrics []).label ≠ "Degraded" ∧
    (_compute_health scenarioMetrics []).label ≠ "Healthy" := by
  have hA : availabilityCheck scenarioMetrics = 1 := by
    unfold availabilityCheck
    rw [show dictGet "availability" scenarioMetrics =
      some (⟨"Availability", "Percent", [99], [0]⟩ : ScalarMetric) from rfl]
    norm_num [ScalarMetric.latest, List.getLast?, List.getLast]
  have hE : errorRateCheck scenarioMetrics = 0 := by
    unfold errorRateCheck
    rw [show dictGet "total_errors" scenarioMetrics =
      some (⟨"Total Error Rate", "Percent", [0.5], [0]⟩ : ScalarMetric) from rfl]
    norm_num [ScalarMetric.latest, List.getLast?, List.getLast]
  have hL : latencyCheck scenarioMetrics = 0 := by decide
  have hwatch : (_compute_health scenarioMetrics []).label = "Watch" := by
    rw [health_label_eq scenarioMetrics [] (by decide), hA, hE, hL]
    decide
  exact ⟨health_label_eq, rfl, by decide, hwatch,
    by rw [hwatch]; decide, by rw [hwatch]; decide⟩

/-- Witness for C3's general conjunct at the scenario metrics. -/
theorem health_severity_max_witness :
    ¬(scenarioMetrics.isEmpty ∧ ([] : List MetricSample).isEmpty) ∧
    (_compute_health scenarioMetrics []).label =
      severityLabel (Nat.max (Nat.max (availabilityCheck scenarioMetrics)
        (errorRateCheck scenarioMetrics)) (latencyCheck scenarioMetrics)) :=
  ⟨by decide, health_severity_max.1 scenarioMetrics [] (by decide)⟩

/-- In the MB range (1024² ≤ v < 1024³) `_format_bytes` divides twice
by 1024 and tags the result "MB". -/
theorem bytes_mb (v : ℚ) (h1 : 1048576 ≤ v) (h2 : v < 1073741824) :
    _format_bytes v = formatFixed 2 (v / 1024 / 1024) ++ " MB" := by
  have h1024 : (0:ℚ) < 1024 := by norm_num
  have hB : ¬ (v < 1024 ∨ (["KB", "MB", "GB", "TB"] : List String) = []) := by
    push_neg
    refine ⟨by linarith, by simp⟩
  have hKB : ¬ (v / 1024 < 1024 ∨ (["MB", "GB", "TB"] : List String) = []) := by
    push_neg
    have : (1024:ℚ) ≤ v / 1024 := by
      rw [le_div_iff₀ h1024]
      linarith
    exact ⟨this, by simp⟩
  have hMB : v / 1024 / 1024 < 1024 ∨ (["GB", "TB"] : List String) = [] := by
    left
    rw [div_lt_iff₀ h1024, div_lt_iff₀ h1024]
    linarith
  unfold _format_bytes
  simp only [formatBytesGo]
  rw [if_neg hB, if_neg hKB, if_pos hMB, String.append_assoc]
  congr 1

/-- At and above 1024⁴ the scaling caps at the largest defined unit,
"TB". -/
theorem bytes_tb (v : ℚ) (h1 : 1099511627776 ≤ v) :
    _format_bytes v = formatFixed 2 (v / 1024 / 1024 / 1024 / 1024) ++ " TB" := by
  have h1024 : (0:ℚ) < 1024 := by norm_num
  have hB : ¬ (v < 1024 ∨ (["KB", "MB", "GB", "TB"] : List String) = []) := by
    push_neg
    refine ⟨by linarith, by simp⟩
  have hKB : ¬ (v / 1024 < 1024 ∨ (["MB", "GB", "TB"] : List String) = []) := by
    push_neg
    have : (1024:ℚ) ≤ v / 1024 := by
      rw [le_div_iff₀ h1024]
      linarith
    exact ⟨this, by simp⟩
  have hMB : ¬ (v / 1024 / 1024 < 1024 ∨ (["GB", "TB"] : List String) = []) := by
    push_neg
    have : (1024:ℚ) ≤ v / 1024 / 1024 := by
      rw [le_div_iff₀ h1024, le_div_iff₀ h1024]
      linarith
    exact ⟨this, by simp⟩
  have hGB : ¬ (v / 1024 / 1024 / 1024 < 1024 ∨ (["TB"] : List String) = []) := by
    push_neg
    have : (1024:ℚ) ≤ v / 1024 / 1024 / 1024 := by
      rw [le_div_iff₀ h1024, le_div_iff₀ h1024, le_div_iff₀ h1024]
      linarith
    exact ⟨this, by simp⟩
  unfold _format_bytes
  simp only [formatBytesGo]
  rw [if_neg hB, if_neg hKB, if_neg hMB, if_neg hGB,
    if_pos (Or.inr trivial), String.append_assoc]
  congr 1

/-- 1,048,576 bytes render as exactly "1.00 MB". -/
theorem bytes_concrete : _format_bytes 1048576 = "1.00 MB" := by
  rw [bytes_mb 1048576 (by norm_num) (by norm_num)]
  have e1 : (1048576:ℚ)/1024 = 1024 := by norm_num
  have e2 : (1024:ℚ)/1024 = 1 := by norm_num
  rw [e1, e2]
  have hf : formatFixed 2 (1:ℚ) = "1.00" := by
    norm_num [formatFixed, formatFixedNonneg, roundHalfEven, commaGrouped,
      groupRev, Nat.toDigits, Nat.toDigitsCore]
    decide
  rw [hf]
  decide

/-- C8: byte metrics are rendered with binary-prefix scaling (repeated
division by 1024, stopping at the first unit whose scaled value is
below 1024 and capping at "TB") at two-decimal precision; in
particular 1,048,576 bytes render as "1.00 MB", not "1000.00 KB". -/
theorem bytes_binary_prefix :
    (∀ v : ℚ, 1048576 ≤ v → v < 1073741824 →
        _format_bytes v = formatFixed 2 (v / 1024 / 1024) ++ " MB") ∧
    (∀ v : ℚ, 1099511627776 ≤ v →
        _format_bytes v =
          formatFixed 2 (v / 1024 / 1024 / 1024 / 1024) ++ " TB") ∧
    _format_bytes 1048576 = "1.00 MB" ∧
    _format_bytes 1048576 ≠ "1000.00 KB" :=
  ⟨bytes_mb, bytes_tb, bytes_concrete, by rw [bytes_concrete]; decide⟩

/-- Witness for C8 at 1,048,576 (MB range) and 1024⁴ (TB cap). -/
theorem bytes_binary_prefix_witness :
    (1048576 ≤ (1048576:ℚ) ∧ (1048576:ℚ) < 1073741824 ∧
      _format_bytes 1048576 =
        formatFixed 2 ((1048576:ℚ) / 1024 / 1024) ++ " MB") ∧
    (1099511627776 ≤ (1099511627776:ℚ) ∧
      _format_bytes 1099511627776 =
        formatFixed 2 ((1099511627776:ℚ) / 1024 / 1024 / 1024 / 1024) ++ " TB") :=
  ⟨⟨by decide, by decide,
    bytes_binary_prefix.1 1048576 (by decide) (by decide)⟩,
   ⟨by decide,
    bytes_binary_prefix.2.1 1099511627776 (by decide)⟩⟩

/-- Behaviour of `_env_int`: a parsable value yields `max 1 value`, an
unset variable or a parse failure keeps the default. -/
theorem env_int_spec (raw : Option String) (d : Int) :
    (∀ s n, raw = some s → pyParseInt s = some n → _env_int raw d = max 1 n) ∧
    (raw = none → _env_int raw d = d) ∧
    (∀ s, raw = some s → pyParseInt s = none → _env_int raw d = d) := by
  refine ⟨?_, ?_, ?_⟩
  · intro s n hs hp
    subst hs
    have hne : s ≠ "" := by
      intro h
      subst h
      exact Option.noConfusion ((rfl : pyParseInt "" = none).symm.trans hp)
    simp only [_env_int, if_neg hne, hp]
  · intro h
    subst h
    rfl
  · intro s hs hp
    subst hs
    by_cases hse : s = ""
    · simp only [_env_int, if_pos hse]
    · simp only [_env_int, if_neg hse, hp]

/-- C9: a parsable integer in `CF_PERIOD_SECONDS` /
`CF_WINDOW_MINUTES` / `CF_POLL_SECONDS` makes the corresponding
injected field exactly `max 1 value` — in particular no rounding to a
multiple of 60 is applied to environment overrides — while an unset or
unparsable variable keeps the persisted value. -/
theorem env_overrides_exact (env : Env) (cfg : WonderConfig) :
    (∀ s n, env.CF_PERIOD_SECONDS = some s → pyParseInt s = some n →
        (_inject_overrides env cfg).period_seconds = max 1 n) ∧
    (env.CF_PERIOD_SECONDS = none →
        (_inject_overrides env cfg).period_seconds = cfg.period_seconds) ∧
    (∀ s, env.CF_PERIOD_SECONDS = some s → pyParseInt s = none →
        (_inject_overrides env cfg).period_seconds = cfg.period_seconds) ∧
    (∀ s n, env.CF_WINDOW_MINUTES = some s → pyParseInt s = some n →
        (_inject_overrides env cfg).window_minutes = max 1 n) ∧
    (env.CF_WINDOW_MINUTES = none →
        (_inject_overrides env cfg).window_minutes = cfg.window_minutes) ∧
    (∀ s, env.CF_WINDOW_MINUTES = some s → pyParseInt s = none →
        (_inject_overrides env cfg).window_minutes = cfg.window_minutes) ∧
    (∀ s n, env.CF_POLL_SECONDS = some s → pyParseInt s = some n →
        (_inject_overrides env cfg).poll_seconds = max 1 n) ∧
    (env.CF_POLL_SECONDS = none →
        (_inject_overrides env cfg).poll_seconds = cfg.poll_seconds) ∧
    (∀ s, env.CF_POLL_SECONDS = some s → pyParseInt s = none →
        (_inject_overrides env cfg).poll_seconds = cfg.poll_seconds) :=
  ⟨(env_int_spec _ _).1, (env_int_spec _ _).2.1, (env_int_spec _ _).2.2,
   (env_int_spec _ _).1, (env_int_spec _ _).2.1, (env_int_spec _ _).2.2,
   (env_int_spec _ _).1, (env_int_spec _ _).2.1, (env_int_spec _ _).2.2⟩

/-- Witness for C9: `CF_PERIOD_SECONDS=61` yields period 61 (not 120),
and the unset window variable keeps the persisted value. -/
theorem env_overrides_exact_witness :
    env61.CF_PERIOD_SECONDS = some "61" ∧ pyParseInt "61" = some 61 ∧
    (_inject_overrides env61 {}).period_seconds = max 1 61 ∧
    (_inject_overrides env61 {}).period_seconds = 61 ∧
    env61.CF_WINDOW_MINUTES = none ∧
    (_inject_overrides env61 {}).window_minutes =
      ({} : WonderConfig).window_minutes :=
  ⟨rfl, by decide,
   (env_overrides_exact env61 {}).1 "61" 61 rfl (by decide),
   ((env_overrides_exact env61 {}).1 "61" 61 rfl (by decide)).trans (by decide),
   rfl,
   (env_overrides_exact env61 {}).2.2.2.2.1 rfl⟩

/-- Elimination for a successful `ensure_valid`: the untouched fields,
the positivity of the inputs, the rounded period, and the cleaned
resource id. -/
theorem ensure_valid_ok_elim (c c' : WonderConfig) (h : ensure_valid c = .ok c') :
    c'.aws_profile = c.aws_profile ∧
    c'.region = c.region ∧
    c'.window_minutes = c.window_minutes ∧
    c'.poll_seconds = c.poll_seconds ∧
    0 < c.period_seconds ∧ 0 < c.window_minutes ∧ 0 < c.poll_seconds ∧
    c'.period_seconds % 60 = 0 ∧ 60 ≤ c'.period_seconds ∧
    c'.distribution_id = (match c.distribution_id with
      | some s => cleanDistributionId s
      | none => none) := by
  unfold ensure_valid at h
  split_ifs at h <;>
    first
      | exact Except.noConfusion h
      | (dsimp only at h; injection h with h; subst h;
         refine ⟨rfl, rfl, rfl, rfl, by omega, by omega, by omega, ?_, ?_, rfl⟩ <;>
           (dsimp only; split_ifs <;> omega))

/-- Members of the printable-ASCII filter satisfy the bounds. -/
theorem chars_of_filter_printable (l : List Char) :
    ∀ ch ∈ l.filter fun c => decide (32 ≤ c.toNat ∧ c.toNat ≤ 126),
      32 ≤ ch.toNat ∧ ch.toNat ≤ 126 := by
  intro ch hch
  exact of_decide_eq_true (List.mem_filter.mp hch).2

/-- `cleanDistributionId` yields `none` or a non-empty printable-ASCII
string. -/
theorem cleanDistributionId_cases (s : String) :
    cleanDistributionId s = none ∨
    ∃ t : String, cleanDistributionId s = some t ∧ t.data ≠ [] ∧
      ∀ ch ∈ t.data, 32 ≤ ch.toNat ∧ ch.toNat ≤ 126 := by
  simp only [cleanDistributionId]
  set c1 := (pyStrip s.data).filter
    (fun ch => decide (32 ≤ ch.toNat ∧ ch.toNat ≤ 126)) with hc1
  set d := if c1 ≠ [] ∧ ¬ (c1.all fun ch => decide (ch.toNat < 128)) then
      c1.filter (fun ch => decide (ch.toNat < 128))
    else c1 with hd
  have hsub : ∀ ch ∈ d, ch ∈ c1 := by
    intro ch hch
    rw [hd] at hch
    split at hch
    · exact (List.mem_filter.mp hch).1
    · exact hch
  have hdchars : ∀ ch ∈ d, 32 ≤ ch.toNat ∧ ch.toNat ≤ 126 := by
    intro ch hch
    have hm := hsub ch hch
    rw [hc1] at hm
    exact chars_of_filter_printable _ ch hm
  by_cases hdn : d = []
  · left
    rw [if_pos hdn]
  · right
    exact ⟨String.mk d, by rw [if_neg hdn], hdn, hdchars⟩

/-- C10: after normalization the distribution id is `None` or a
non-empty string of printable ASCII (codes 32–126), and the
dashboard's missing-resource guard fires exactly when the normalized
id is `None` — so a blank raw id (normalized to `None`) also triggers
the exit-code-1 guard. -/
theorem normalized_id_printable (c c' : WonderConfig)
    (h : ensure_valid c = .ok c') :
    (c'.distribution_id = none ∨
      ∃ s : String, c'.distribution_id = some s ∧ s.data ≠ [] ∧
        ∀ ch ∈ s.data, 32 ≤ ch.toNat ∧ ch.toNat ≤ 126) ∧
    (dashboardGuardExits c' = true ↔ c'.distribution_id = none) := by
  have hid := (ensure_valid_ok_elim c c' h).2.2.2.2.2.2.2.2.2
  have hinv : c'.distribution_id = none ∨
      ∃ s : String, c'.distribution_id = some s ∧ s.data ≠ [] ∧
        ∀ ch ∈ s.data, 32 ≤ ch.toNat ∧ ch.toNat ≤ 126 := by
    rw [hid]
    cases hd : c.distribution_id with
    | none => left; rfl
    | some s => exact cleanDistributionId_cases s
  refine ⟨hinv, ?_⟩
  rcases hinv with hnone | ⟨t, ht, htne, _⟩
  · simp [dashboardGuardExits, hnone]
  · have htne' : t ≠ "" := by
      intro he
      subst he
      exact htne rfl
    simp [dashboardGuardExits, ht, htne']

/-- Witness for C10: an all-blank id ("   ") normalizes to `None`, the
guard fires. -/
theorem normalized_id_printable_witness :
    ensure_valid blankConfig = .ok {} ∧
    ((({} : WonderConfig).distribution_id = none ∨
      ∃ s : String, ({} : WonderConfig).distribution_id = some s ∧
        s.data ≠ [] ∧ ∀ ch ∈ s.data, 32 ≤ ch.toNat ∧ ch.toNat ≤ 126) ∧
     (dashboardGuardExits ({} : WonderConfig) = true ↔
       ({} : WonderConfig).distribution_id = none)) ∧
    dashboardGuardExits ({} : WonderConfig) = true :=
  ⟨rfl, normalized_id_printable blankConfig {} rfl, rfl⟩

/-- The head of a `dropWhile` result does not satisfy the predicate. -/
theorem dropWhile_head_false (p : Char → Bool) :
    ∀ l a t, List.dropWhile p l = a :: t → p a = false := by
  intro l
  induction l with
  | nil => intro a t h; exact List.noConfusion h
  | cons b bs ih =>
      intro a t h
      by_cases hb : p b = true
      · rw [List.dropWhile_cons, if_pos hb] at h
        exact ih a t h
      · rw [List.dropWhile_cons, if_neg hb] at h
        injection h with h1 _
        subst h1
        exact Bool.eq_false_iff.mpr hb

/-- A left-strip is stable under a further left-strip even after a
right-strip in between. -/
theorem dropWhile_rdropWhile (p : Char → Bool) (l : List Char) :
    List.dropWhile p (List.rdropWhile p (List.dropWhile p l)) =
      List.rdropWhile p (List.dropWhile p l) := by
  cases hr : List.rdropWhile p (List.dropWhile p l) with
  | nil => rfl
  | cons a as =>
      obtain ⟨rest, hrest⟩ := List.rdropWhile_prefix p (List.dropWhile p l)
      rw [hr] at hrest
      have hna : p a = false :=
        dropWhile_head_false p l a (as ++ rest) (by simpa using hrest.symm)
      rw [List.dropWhile_cons, if_neg (by simp [hna])]

/-- Python `strip` is idempotent. -/
theorem pyStrip_idem (l : List Char) : pyStrip (pyStrip l) = pyStrip l := by
  unfold pyStrip
  rw [dropWhile_rdropWhile, List.rdropWhile_idempotent]

/-- Stripping preserves the printable-ASCII character bound. -/
theorem strip_mem_printable (s : String)
    (hs : ∀ ch ∈ s.data, 32 ≤ ch.toNat ∧ ch.toNat ≤ 126) :
    ∀ ch ∈ pyStrip s.data, 32 ≤ ch.toNat ∧ ch.toNat ≤ 126 := by
  intro ch hch
  apply hs
  have h1 : List.Sublist (pyStrip s.data) (List.dropWhile isPySpace s.data) :=
    (List.rdropWhile_prefix _ _).sublist
  exact (h1.trans (List.dropWhile_sublist _)).mem hch

/-- On a printable-ASCII input, the id cleaning is a projection: its
output is a fixed point. -/
theorem cleanDistributionId_printable_fixed (s t : String)
    (hs : ∀ ch ∈ s.data, 32 ≤ ch.toNat ∧ ch.toNat ≤ 126)
    (h : cleanDistributionId s = some t) :
    cleanDistributionId t = some t := by
  have hstrip := strip_mem_printable s hs
  have hfix : (pyStrip s.data).filter
      (fun ch => decide (32 ≤ ch.toNat ∧ ch.toNat ≤ 126)) = pyStrip s.data :=
    List.filter_eq_self.mpr fun a ha => decide_eq_true (hstrip a ha)
  have hall : (pyStrip s.data).all (fun ch => decide (ch.toNat < 128)) = true := by
    rw [List.all_eq_true]
    intro ch hch
    have h2 := (hstrip ch hch).2
    exact decide_eq_true (by omega)
  have hc1 : ¬ (pyStrip s.data ≠ [] ∧
      ¬ ((pyStrip s.data).all fun ch => decide (ch.toNat < 128))) := by
    simp [hall]
  simp only [cleanDistributionId, hfix] at h
  rw [if_neg hc1] at h
  by_cases hn : pyStrip s.data = []
  · rw [if_pos hn] at h
    exact Option.noConfusion h
  · rw [if_neg hn] at h
    injection h with h
    subst h
    simp only [cleanDistributionId]
    rw [pyStrip_idem, hfix, if_neg hc1, if_neg hn]

/-- C5 counterexample: normalizing `cexConfig` (resource id
`"\x01 a"`) once yields id `" a"`, normalizing again yields `"a"` — so
running the normalization twice does not equal running it once. -/
theorem normalization_not_idempotent :
    ensure_valid cexConfig = .ok cexOnce ∧
    ensure_valid cexOnce = .ok cexTwice ∧
    cexOnce ≠ cexTwice :=
  ⟨rfl, rfl, by decide⟩

/-- C5 (amended): normalization is idempotent for every configuration
with positive numeric fields whose resource id is absent or consists
only of printable ASCII characters (codes 32–126); the counterexample
shows the restriction on the id is necessary. -/
theorem normalization_idempotent_printable (c c' : WonderConfig)
    (hid : c.distribution_id = none ∨
      ∃ s : String, c.distribution_id = some s ∧
        ∀ ch ∈ s.data, 32 ≤ ch.toNat ∧ ch.toNat ≤ 126)
    (h : ensure_valid c = .ok c') :
    ensure_valid c' = .ok c' := by
  obtain ⟨hprof, hreg, hwin, hpoll, hp, hw, hq, hmod, hge, hid'⟩ :=
    ensure_valid_ok_elim c c' h
  unfold ensure_valid
  rw [if_neg (by omega), if_neg (by omega), if_neg (by omega)]
  dsimp only
  rw [if_neg (show ¬ c'.period_seconds < 60 by omega)]
  rw [if_neg (show ¬ c'.period_seconds % 60 ≠ 0 by omega)]
  have hid2 : (match c'.distribution_id with
      | some s => cleanDistributionId s
      | none => none) = c'.distribution_id := by
    rcases hid with hnone | ⟨s, hsome, hchars⟩
    · have hcn : c'.distribution_id = none := by rw [hid', hnone]
      rw [hcn]
    · have hcs : c'.distribution_id = cleanDistributionId s := by rw [hid', hsome]
      rw [hcs]
      cases hclean : cleanDistributionId s with
      | none => rfl
      | some t => exact cleanDistributionId_printable_fixed s t hchars hclean
  rw [hid2]

/-- Witness for C5's amended theorem: a printable id "E123" with
period 61; one normalization gives period 120, a second changes
nothing. -/
theorem normalization_idempotent_printable_witness :
    (cfgPrintable.distribution_id = none ∨
      ∃ s : String, cfgPrintable.distribution_id = some s ∧
        ∀ ch ∈ s.data, 32 ≤ ch.toNat ∧ ch.toNat ≤ 126) ∧
    ensure_valid cfgPrintable = .ok cfgPrintableNorm ∧
    ensure_valid cfgPrintableNorm = .ok cfgPrintableNorm :=
  ⟨Or.inr ⟨"E123", rfl, by decide⟩, rfl,
   normalization_idempotent_printable cfgPrintable cfgPrintableNorm
     (Or.inr ⟨"E123", rfl, by decide⟩) rfl⟩

end WonderDash
